import Mathlib

/-!
Verification of the model-serving orchestrator of `localcode`
(`src/runner.rs`, `src/main.rs`): source resolution, download coordination,
routing-config generation, container lifecycle with GPU→CPU fallback, and
log-driven status classification.

Side effects (process spawning, network fetches) are modelled by explicit
oracles passed as function arguments; functions instrumented with a trace
record, in order, exactly those effects the Rust code performs.
-/

namespace Localcode

/-- Embeds `ModelSelection` from `src/ui.rs` (name + optional quantization). -/
structure ModelSelection where
  name : String
  quant : Option String
deriving DecidableEq, Repr

/-- `leads pat l` holds when `pat` is a leading block of `l`. -/
def leads (pat l : List Char) : Bool :=
  match pat, l with
  | [], _ => true
  | _ :: _, [] => false
  | p :: ps, c :: cs => p == c && leads ps cs

/-- `occurs_in pat l` holds when `pat` occurs contiguously somewhere in `l`. -/
def occurs_in (pat l : List Char) : Bool :=
  match l with
  | [] => leads pat []
  | _ :: cs => leads pat l || occurs_in pat cs

/-- Embeds Rust `str::contains` (substring containment). -/
def str_contains (s pat : String) : Bool :=
  occurs_in pat.toList s.toList

/-- Embeds the static-catalog `match` of `extract_hf_repo_and_file`
(`src/runner.rs` lines 19-28): known model identifiers map to a fixed full
URL, any other name falls back to one default URL. -/
def default_url (model_name : String) : String :=
  match model_name with
  | "llama3-70b-instruct" => "https://huggingface.co/lmstudio-community/Meta-Llama-3-70B-Instruct-GGUF/resolve/main/Meta-Llama-3-70B-Instruct-Q4_K_M.gguf"
  | "mixtral-8x7b-instruct" => "https://huggingface.co/TheBloke/Mixtral-8x7B-Instruct-v0.1-GGUF/resolve/main/mixtral-8x7b-instruct-v0.1.Q4_K_M.gguf"
  | "llama3-8b-instruct" => "https://huggingface.co/lmstudio-community/Meta-Llama-3-8B-Instruct-GGUF/resolve/main/Meta-Llama-3-8B-Instruct-Q4_K_M.gguf"
  | "phi3-mini" => "https://huggingface.co/microsoft/Phi-3-mini-4k-instruct-gguf/resolve/main/Phi-3-mini-4k-instruct-q4.gguf"
  | "gemma-2b-it" => "https://huggingface.co/google/gemma-2b-it-GGUF/resolve/main/2b-it-v1.1-q4_k_m.gguf"
  | "qwen2-7b-instruct" => "https://huggingface.co/Qwen/Qwen2-7B-Instruct-GGUF/resolve/main/qwen2-7b-instruct-q4_k_m.gguf"
  | "mistral-7b-instruct" => "https://huggingface.co/TheBloke/Mistral-7B-Instruct-v0.2-GGUF/resolve/main/mistral-7b-instruct-v0.2.Q4_K_M.gguf"
  | _ => "https://huggingface.co/lmstudio-community/Meta-Llama-3-8B-Instruct-GGUF/resolve/main/Meta-Llama-3-8B-Instruct-Q4_K_M.gguf"

/-- Embeds Rust `str::split` on a single character: cut the character list
at every occurrence of `c`; `n` separators yield `n + 1` pieces. -/
def split_char (c : Char) : List Char → List (List Char)
  | [] => [[]]
  | x :: xs =>
    if x == c then [] :: split_char c xs
    else
      match split_char c xs with
      | [] => [[x]]
      | y :: ys => (x :: y) :: ys

/-- Split a string at every occurrence of one character. -/
def split_on_char (c : Char) (s : String) : List String :=
  (split_char c s.data).map String.mk

/-- `model_name.split('/').collect()` as used by the resolver. -/
def split_slash (s : String) : List String :=
  split_on_char (Char.ofNat 47) s

/-- Embeds `extract_hf_repo_and_file` (`src/runner.rs` lines 7-31).
With `quant = some q` it takes the dynamic-naming path: split the name on
`/`, take `parts[1]` when there is more than one part, else the whole name;
repo is `bartowski/<base>-GGUF` and file is `<base>-<q>.gguf`.
With `quant = none` it returns an empty repo together with the full catalog
URL as the file reference. -/
def extract_hf_repo_and_file (model_name : String) (quant : Option String) :
    String × Option String :=
  match quant with
  | some q =>
    let parts := split_slash model_name
    let base_name := if h : parts.length > 1 then parts.get ⟨1, h⟩ else model_name
    ("bartowski/" ++ base_name ++ "-GGUF", some (base_name ++ "-" ++ q ++ ".gguf"))
  | none => ("", some (default_url model_name))

/-- Embeds Rust `str::to_lowercase`, character by character. -/
def to_lowercase (s : String) : String :=
  String.mk (s.data.map Char.toLower)

/-- Embeds `is_autocomplete_model` (`src/runner.rs` lines 231-238). -/
def is_autocomplete_model (model_name : String) : Bool :=
  let lower := to_lowercase model_name
  str_contains lower "mini" ||
  str_contains lower "coder" ||
  str_contains lower "1.5b" ||
  str_contains lower "2b" ||
  str_contains lower "0.5b"

/-- Embeds the loop of `download_models` (`src/runner.rs` lines 33-73).
The underlying hub client (`api.model(repo).get(file)`) is modelled by the
oracle `fetch`; the first component of the result records, in order, every
`(repo, file)` pair actually handed to the client, the second is the
function's `Result`.  A target whose repo is empty or whose file is absent
is skipped (`continue`); a fetch error propagates immediately (the `??`),
ending the batch. -/
def download_models (fetch : String → String → Except String Unit) :
    List ModelSelection → List (String × String) × Except String Unit
  | [] => ([], Except.ok ())
  | m :: rest =>
    let rf := extract_hf_repo_and_file m.name m.quant
    if rf.1.isEmpty || rf.2.isNone then
      download_models fetch rest
    else
      match rf.2 with
      | none => download_models fetch rest
      | some file_name =>
        match fetch rf.1 file_name with
        | Except.ok _ =>
          let t := download_models fetch rest
          ((rf.1, file_name) :: t.1, t.2)
        | Except.error e => ([(rf.1, file_name)], Except.error e)

/-- Embeds the per-model `cmd:` line of `start_llama_swap_docker`
(`src/runner.rs` lines 110-122): the `--hf-file` fragment is produced only
when a file reference is present, the `--hf-repo` fragment only when the
repo is non-empty. -/
def model_cmd_line (repo : String) (file : Option String) : String :=
  let file_arg := match file with
    | some f => "--hf-file " ++ f
    | none => ""
  let repo_arg := if repo = "" then "" else "--hf-repo " ++ repo
  "    cmd: llama-server --port ${PORT} " ++ repo_arg ++ " " ++ file_arg ++
    " --host 0.0.0.0 --ctx-size 8192\n"

/-- One model's block in the generated `llama-swap.yaml`
(`src/runner.rs` lines 99-123). -/
def model_entry (m : ModelSelection) : String :=
  let rf := extract_hf_repo_and_file m.name m.quant
  "  " ++ m.name ++ ":\n" ++ model_cmd_line rf.1 rf.2

/-- The literal header of the optional groups section
(`src/runner.rs` line 126). -/
def groups_header : String :=
  "\ngroups:\n  autocomplete:\n    persistent: true\n    swap: false\n    exclusive: false\n    members:\n"

/-- One member line of the groups section (`src/runner.rs` line 128). -/
def member_line (model_name : String) : String :=
  "      - " ++ model_name ++ "\n"

/-- One iteration of the config-generation loop of `start_llama_swap_docker`
(`src/runner.rs` lines 99-123): append the model's block to the yaml text
and, when the name qualifies, record it among the autocomplete models. -/
def config_step (acc : String × List String) (m : ModelSelection) :
    String × List String :=
  let yaml := acc.1 ++ model_entry m
  let autos := if is_autocomplete_model m.name then acc.2 ++ [m.name] else acc.2
  (yaml, autos)

/-- Concatenation of the strings produced for each list element, in list
order (the `push_str`-in-a-loop pattern of `runner.rs`). -/
def concat_map_str (f : α → String) : List α → String
  | [] => ""
  | x :: xs => f x ++ concat_map_str f xs

/-- Embeds the config generation of `start_llama_swap_docker`
(`src/runner.rs` lines 96-130): the per-model fold, then the optional
groups section listing the collected autocomplete models. -/
def generate_config (models : List ModelSelection) : String :=
  let res := models.foldl config_step ("models:\n", [])
  if res.2.isEmpty then res.1
  else res.1 ++ groups_header ++ concat_map_str member_line res.2

/-- The names of the selections the grouping heuristic admits, in input
order. -/
def autocomplete_members (models : List ModelSelection) : List String :=
  (models.filter (fun m => is_autocomplete_model m.name)).map (fun m => m.name)

/-- The groups section the generated config ends with: empty when no
selection qualifies, otherwise the fixed `autocomplete` group header
followed by one member line per qualifying name. -/
def groups_section (models : List ModelSelection) : String :=
  if (autocomplete_members models).isEmpty then ""
  else groups_header ++ concat_map_str member_line (autocomplete_members models)

/-- Captured stdio of one container-runtime invocation
(`std::process::Output` as used by `runner.rs`): exit status plus stderr
text. -/
structure CmdResult where
  success : Bool
  stderr : String
deriving DecidableEq, Repr

/-- The accelerated image reference (`src/runner.rs` line 148). -/
def cuda_image : String := "ghcr.io/mostlygeek/llama-swap:cuda"

/-- The CPU image reference (`src/runner.rs` line 174). -/
def cpu_image : String := "ghcr.io/mostlygeek/llama-swap:cpu"

/-- The `docker run` argument vector built in `start_llama_swap_docker`
(`src/runner.rs` lines 139-149). -/
def docker_run_args (port_mapping volume_mapping config_mount : String) :
    List String :=
  ["run", "-d", "--name", "opencode-llm", "--gpus", "all",
   "-e", "HF_HOME=/models", "-p", port_mapping,
   "-v", volume_mapping, "-v", config_mount, cuda_image]

/-- Embeds `Iterator::position`: index of the first element satisfying the
test. -/
def position (pred : String → Bool) : List String → Option Nat
  | [] => none
  | x :: xs => if pred x then some 0 else (position pred xs).map (· + 1)

/-- Embeds the two `args.remove(pos)` calls of the fallback branch
(`src/runner.rs` lines 169-172): drop `--gpus` and the element that
follows it. -/
def remove_gpus_arg (args : List String) : List String :=
  match position (fun x => x == "--gpus") args with
  | some pos => (args.eraseIdx pos).eraseIdx pos
  | none => args

/-- Embeds the image substitution of the fallback branch
(`src/runner.rs` lines 173-175). -/
def swap_cpu_image (args : List String) : List String :=
  match position (fun x => x == cuda_image) args with
  | some pos => args.set pos cpu_image
  | none => args

/-- The argument vector the fallback branch actually launches with: the
accelerator request removed and the CPU image variant in place of the CUDA
one. -/
def cpu_run_args (port_mapping volume_mapping config_mount : String) :
    List String :=
  ["run", "-d", "--name", "opencode-llm",
   "-e", "HF_HOME=/models", "-p", port_mapping,
   "-v", volume_mapping, "-v", config_mount, cpu_image]

/-- Embeds the stderr signature test of `start_llama_swap_docker`
(`src/runner.rs` line 160). -/
def gpu_absence_signature (stderr : String) : Bool :=
  str_contains stderr "could not select device driver" ||
  str_contains stderr "nvidia"

/-- The launch attempts made and the final outcome of the launch portion of
`start_llama_swap_docker`. -/
structure LaunchTrace where
  attempts : List (List String)
  result : Except String Unit
deriving Repr

/-- Embeds the launch / fallback control flow of `start_llama_swap_docker`
(`src/runner.rs` lines 151-190).  `run` is the oracle executing
`docker <args>`; `attempts` records each argument vector passed to it, in
order. -/
def launch_with_fallback (run : List String → CmdResult) (args : List String) :
    LaunchTrace :=
  let out := run args
  if out.success then ⟨[args], Except.ok ()⟩
  else if gpu_absence_signature out.stderr then
    let args2 := swap_cpu_image (remove_gpus_arg args)
    let out2 := run args2
    if out2.success then ⟨[args, args2], Except.ok ()⟩
    else
      ⟨[args, args2],
       Except.error ("Docker failed to start container on CPU fallback. Ensure ports are not in use.\nError: " ++ out2.stderr)⟩
  else
    ⟨[args],
     Except.error ("Docker failed to start container. Ensure ports are not in use.\nError: " ++ out.stderr)⟩

/-- Embeds `stop_server` (`src/runner.rs` lines 213-228).  The oracle value
is the outcome of executing `docker rm -f opencode-llm`: `Except.error`
when the removal command itself could not be executed (the `.await?`),
otherwise the captured `Output`.  The returned value is the confirmation
message printed on a zero exit status; a non-zero exit status is still a
success. -/
def stop_server (run : Except String CmdResult) : Except String (Option String) :=
  match run with
  | Except.error e => Except.error e
  | Except.ok status =>
    Except.ok (if status.success then some "Server stopped successfully." else none)

/-- The stages of `Commands::Start` in `src/main.rs` (lines 70-111). -/
inductive StartStep where
  | download
  | startContainer
deriving DecidableEq, Repr

/-- Embeds the `Commands::Start` sequencing of `src/main.rs` (lines 92-111):
run the download batch; on error print the failure and exit without ever
invoking `start_llama_swap_docker`; otherwise invoke the container start and
report its outcome.  The first component records which stages ran. -/
def run_start (fetch : String → String → Except String Unit)
    (launch : Except String Unit) (models : List ModelSelection) :
    List StartStep × Except String Unit :=
  match (download_models fetch models).2 with
  | Except.error e =>
    ([StartStep.download], Except.error ("Failed to download models: " ++ e))
  | Except.ok _ =>
    match launch with
    | Except.error e =>
      ([StartStep.download, StartStep.startContainer],
       Except.error ("Failed to start Docker container: " ++ e))
    | Except.ok _ =>
      ([StartStep.download, StartStep.startContainer], Except.ok ())

/-- Modelled from the spec: the phase events of the StatusMonitor (§4.5).
The classifier itself is absent from `src/` — `show_status`
(`src/runner.rs` lines 193-211) only streams the container log — so the
event vocabulary is taken from the spec's words. -/
inductive PhaseEvent where
  | ready
  | metaStat (key value : String)
  | downloading
  | loadingBuffers
  | processingLayers
  | computingCache
  | generic (text : String)
deriving DecidableEq, Repr

/-- Modelled from the spec: the fixed log vocabulary the StatusMonitor keys
on (§4.5) — the server's "listening" marker, the line-prefix token stripped
for `MetaStat`, one fixed substring per known phase, and the character bound
of the `Generic` fallback. -/
structure LogVocabulary where
  listening : String
  metaTag : String
  downloadingKey : String
  loadingBuffersKey : String
  processingLayersKey : String
  computingCacheKey : String
  genericLimit : Nat

/-- Leading and trailing whitespace removed (Rust `str::trim`). -/
def str_trim (s : String) : String :=
  String.mk ((((s.data.dropWhile Char.isWhitespace).reverse).dropWhile
    Char.isWhitespace).reverse)

/-- The first `n` characters of a string. -/
def str_take (s : String) (n : Nat) : String :=
  String.mk (s.data.take n)

/-- Modelled from the spec: strip the known line-prefix token before the
`MetaStat` split (§4.5). -/
def strip_meta_tag (v : LogVocabulary) (line : String) : String :=
  if leads v.metaTag.data line.data then
    String.mk (line.data.drop v.metaTag.data.length)
  else line

/-- Modelled from the spec: the `MetaStat` parts of a line — strip the known
prefix token, split on `=` (§4.5). -/
def meta_parts (v : LogVocabulary) (line : String) : List String :=
  split_on_char (Char.ofNat 61) (strip_meta_tag v line)

/-- Modelled from the spec: classify one log line, in priority order
`Ready`, `MetaStat`, `Downloading`, `LoadingBuffers`, `ProcessingLayers`,
`ComputingCache`, `Generic` — first match wins (§4.5). -/
def classify_line (v : LogVocabulary) (line : String) : PhaseEvent :=
  if line = v.listening then PhaseEvent.ready
  else
    match meta_parts v line with
    | [k, val] => PhaseEvent.metaStat (str_trim k) (str_trim val)
    | _ =>
      if str_contains line v.downloadingKey then PhaseEvent.downloading
      else if str_contains line v.loadingBuffersKey then PhaseEvent.loadingBuffers
      else if str_contains line v.processingLayersKey then PhaseEvent.processingLayers
      else if str_contains line v.computingCacheKey then PhaseEvent.computingCache
      else PhaseEvent.generic (str_take line v.genericLimit)

/-- Modelled from the spec: an ordered `(predicate, constructor)` rule list
evaluated top-to-bottom, first match wins (§9's prescribed reimplementation
of the classifier). -/
def phase_rules (v : LogVocabulary) :
    List ((String → Bool) × (String → PhaseEvent)) :=
  [ (fun l => l = v.listening, fun _ => PhaseEvent.ready),
    (fun l => (meta_parts v l).length = 2,
     fun l => PhaseEvent.metaStat (str_trim ((meta_parts v l).getD 0 ""))
                (str_trim ((meta_parts v l).getD 1 ""))),
    (fun l => str_contains l v.downloadingKey, fun _ => PhaseEvent.downloading),
    (fun l => str_contains l v.loadingBuffersKey, fun _ => PhaseEvent.loadingBuffers),
    (fun l => str_contains l v.processingLayersKey, fun _ => PhaseEvent.processingLayers),
    (fun l => str_contains l v.computingCacheKey, fun _ => PhaseEvent.computingCache) ]

/-- Evaluate an ordered rule list top-to-bottom; the first rule whose
predicate holds produces the event, and the fallback fires when none
matches. -/
def first_match (rules : List ((String → Bool) × (String → PhaseEvent)))
    (fallback : String → PhaseEvent) (line : String) : PhaseEvent :=
  match rules with
  | [] => fallback line
  | r :: rest => if r.1 line then r.2 line else first_match rest fallback line

/-- Modelled from the spec: the watch loop (§4.5) — empty lines emit
nothing, every non-empty line emits exactly one classification, and the
`Ready` event ends the sequence. -/
def watch_lines (v : LogVocabulary) : List String → List PhaseEvent
  | [] => []
  | l :: ls =>
    if l = "" then watch_lines v ls
    else
      let e := classify_line v l
      if e = PhaseEvent.ready then [e] else e :: watch_lines v ls

/-! ## Concrete fixtures used to exercise the theorems -/

/-- A hub client for which every fetch succeeds. -/
def fetch_ok : String → String → Except String Unit := fun _ _ => Except.ok ()

/-- A hub client for which every fetch fails with a diagnostic naming the
target. -/
def fetch_reject : String → String → Except String Unit :=
  fun repo file => Except.error ("404 Not Found: " ++ repo ++ "/" ++ file)

/-- A container runtime with no usable GPU: any launch requesting `--gpus`
fails with the driver-absence diagnostic, any other launch succeeds. -/
def gpu_failing_docker (args : List String) : CmdResult :=
  if args.contains "--gpus" then
    ⟨false, "docker: Error response from daemon: could not select device driver (nvidia) with capabilities: [[gpu]]."⟩
  else ⟨true, ""⟩

/-- A concrete log vocabulary for exercising the status monitor. -/
def sample_vocabulary : LogVocabulary :=
  ⟨"main: server is listening on http://0.0.0.0:8080",
   "llm_load_print_meta:", "downloading", "buffer size", "layers", "cache", 60⟩

/-! ## Helper lemmas -/

theorem leads_eq_true_iff (pat l : List Char) :
    leads pat l = true ↔ ∃ t, l = pat ++ t := by
  induction pat generalizing l with
  | nil => simp [leads]
  | cons p ps ih =>
    cases l with
    | nil => simp [leads]
    | cons c cs =>
      simp only [leads, Bool.and_eq_true, beq_iff_eq, ih, List.cons_append,
        List.cons.injEq]
      constructor
      · rintro ⟨rfl, t, rfl⟩
        exact ⟨t, rfl, rfl⟩
      · rintro ⟨t, rfl, rfl⟩
        exact ⟨rfl, t, rfl⟩

theorem occurs_in_eq_true_iff (pat l : List Char) :
    occurs_in pat l = true ↔ ∃ s t, l = s ++ pat ++ t := by
  induction l with
  | nil =>
    simp only [occurs_in, leads_eq_true_iff]
    constructor
    · rintro ⟨t, ht⟩
      exact ⟨[], t, by simpa using ht⟩
    · rintro ⟨s, t, hst⟩
      rcases List.append_eq_nil.mp hst.symm with ⟨h1, h2⟩
      rcases List.append_eq_nil.mp h1 with ⟨rfl, rfl⟩
      exact ⟨t, by simpa using hst⟩
  | cons c cs ih =>
    simp only [occurs_in, Bool.or_eq_true, leads_eq_true_iff, ih]
    constructor
    · rintro (⟨t, ht⟩ | ⟨s, t, hst⟩)
      · exact ⟨[], t, by simpa using ht⟩
      · exact ⟨c :: s, t, by simp [hst]⟩
    · rintro ⟨s, t, hst⟩
      cases s with
      | nil => exact Or.inl ⟨t, by simpa using hst⟩
      | cons a s' =>
        have h := List.cons.inj (by simpa using hst)
        exact Or.inr ⟨s', t, by rw [h.2, List.append_assoc]⟩

theorem str_contains_iff (s pat : String) :
    str_contains s pat = true ↔ ∃ l r, s.toList = l ++ pat.toList ++ r := by
  simp [str_contains, occurs_in_eq_true_iff]

/-- The config fold appends one block per model, in input order, and
collects the qualifying names, in input order. -/
theorem config_foldl_eq :
    ∀ (models : List ModelSelection) (y : String) (a : List String),
      models.foldl config_step (y, a) =
        (y ++ concat_map_str model_entry models,
         a ++ autocomplete_members models) := by
  intro models
  induction models with
  | nil =>
    intro y a
    simp [concat_map_str, autocomplete_members]
  | cons m rest ih =>
    intro y a
    rw [List.foldl_cons]
    show List.foldl config_step
      (y ++ model_entry m,
       if is_autocomplete_model m.name then a ++ [m.name] else a) rest = _
    rw [ih]
    simp only [concat_map_str, autocomplete_members, List.filter_cons]
    by_cases hm : is_autocomplete_model m.name
    · simp [hm, String.append_assoc]
    · simp [hm, String.append_assoc]

/-- The generated config is the models section, block by block in input
order, followed by the groups section. -/
theorem generate_config_eq (models : List ModelSelection) :
    generate_config models =
      "models:\n" ++ concat_map_str model_entry models ++ groups_section models := by
  simp only [generate_config]
  rw [config_foldl_eq models "models:\n" []]
  simp only [List.nil_append]
  rw [groups_section]
  by_cases h : (autocomplete_members models).isEmpty
  · rw [if_pos h, if_pos h, String.append_empty]
  · rw [if_neg h, if_neg h, String.append_assoc]

/-- Every `(repo, file)` pair the batch downloader actually hands to the hub
client has a non-empty repo: empty-repo targets are filtered by the
`continue` guard before any fetch. -/
theorem download_trace_repo_ne (fetch : String → String → Except String Unit) :
    ∀ (models : List ModelSelection) (p : String × String),
      p ∈ (download_models fetch models).1 → ¬ p.1 = "" := by
  intro models
  induction models with
  | nil => intro p hp; simp [download_models] at hp
  | cons m rest ih =>
    intro p hp
    rw [download_models] at hp
    by_cases hc : ((extract_hf_repo_and_file m.name m.quant).1.isEmpty ||
        (extract_hf_repo_and_file m.name m.quant).2.isNone) = true
    · rw [if_pos hc] at hp
      exact ih p hp
    · rw [if_neg hc] at hp
      have h1 : ¬ (extract_hf_repo_and_file m.name m.quant).1 = "" := by
        intro h
        exact hc (by simp [h, String.isEmpty_iff])
      rcases h2 : (extract_hf_repo_and_file m.name m.quant).2 with _ | f
      · rw [h2] at hp
        exact ih p hp
      · rw [h2] at hp
        simp only at hp
        rcases h3 : fetch (extract_hf_repo_and_file m.name m.quant).1 f with e | u
        · rw [h3] at hp
          simp only [List.mem_singleton] at hp
          rw [hp]
          exact h1
        · rw [h3] at hp
          simp only [List.mem_cons] at hp
          rcases hp with rfl | hp
          · exact h1
          · exact ih p hp

/-- A batch in which every selection lacks a quantization performs no fetch
at all and succeeds vacuously. -/
theorem download_models_all_legacy (fetch : String → String → Except String Unit) :
    ∀ models : List ModelSelection, (∀ m ∈ models, m.quant = none) →
      download_models fetch models = ([], Except.ok ()) := by
  intro models
  induction models with
  | nil => intro _; rfl
  | cons m rest ih =>
    intro h
    rw [download_models]
    have hm : m.quant = none := h m (List.mem_cons_self m rest)
    rw [hm]
    have : (extract_hf_repo_and_file m.name none).1.isEmpty = true := rfl
    rw [if_pos (by simp [this])]
    exact ih fun x hx => h x (List.mem_cons_of_mem m hx)

/-- Once a prefix of the batch fails, appending further targets changes
nothing: the failing fetch ends the whole batch and later targets are never
examined. -/
theorem download_models_append_error (fetch : String → String → Except String Unit) :
    ∀ (ms₁ ms₂ : List ModelSelection) (e : String),
      (download_models fetch ms₁).2 = Except.error e →
      download_models fetch (ms₁ ++ ms₂) = download_models fetch ms₁ := by
  intro ms₁
  induction ms₁ with
  | nil => intro ms₂ e h; simp [download_models] at h
  | cons m rest ih =>
    intro ms₂ e h
    rw [download_models] at h
    rw [List.cons_append, download_models]
    conv_rhs => rw [download_models]
    by_cases hc : ((extract_hf_repo_and_file m.name m.quant).1.isEmpty ||
        (extract_hf_repo_and_file m.name m.quant).2.isNone) = true
    · rw [if_pos hc] at h
      rw [if_pos hc, if_pos hc]
      exact ih ms₂ e h
    · rw [if_neg hc] at h
      rw [if_neg hc, if_neg hc]
      rcases h2 : (extract_hf_repo_and_file m.name m.quant).2 with _ | f
      · rw [h2] at hc
        simp at hc
      · rw [h2] at h
        simp only at h ⊢
        rcases h3 : fetch (extract_hf_repo_and_file m.name m.quant).1 f with e' | u
        · rfl
        · rw [h3] at h
          simp only at h ⊢
          rw [ih ms₂ e h]

/-- A repo produced by the dynamic-naming path is never the empty string. -/
theorem dynamic_repo_ne_empty (s t : String) :
    ¬ ("bartowski/" ++ s ++ t = "") := by
  intro h
  have h2 := congrArg String.data h
  simp [String.data_append] at h2

/-- Stripping the accelerator request and substituting the CPU image turns
the launch arguments into exactly the CPU variant of the vector. -/
theorem cpu_args_eq (p v c : String) (hp : ¬ p = cuda_image)
    (hv : ¬ v = cuda_image) (hc : ¬ c = cuda_image) :
    swap_cpu_image (remove_gpus_arg (docker_run_args p v c)) =
      cpu_run_args p v c := by
  have h1 : remove_gpus_arg (docker_run_args p v c) =
      ["run", "-d", "--name", "opencode-llm", "-e", "HF_HOME=/models", "-p", p,
       "-v", v, "-v", c, cuda_image] := rfl
  rw [swap_cpu_image, h1]
  have h2 : position (fun x => x == cuda_image)
      ["run", "-d", "--name", "opencode-llm", "-e", "HF_HOME=/models", "-p", p,
       "-v", v, "-v", c, cuda_image] = some 12 := by
    simp only [cuda_image] at hp hv hc
    simp [position, hp, hv, hc, cuda_image]
  rw [h2]
  rfl

/-- The classifier yields `Ready` only for the listening marker itself. -/
theorem classify_line_ne_ready (v : LogVocabulary) (line : String)
    (h : ¬ line = v.listening) :
    ¬ classify_line v line = PhaseEvent.ready := by
  rw [classify_line, if_neg h]
  rcases h2 : meta_parts v line with _ | ⟨k, _ | ⟨val, _ | ⟨x, xs⟩⟩⟩ <;>
    simp only <;>
    first
    | (split_ifs <;> simp)
    | simp

/-! ## Claim theorems -/

/-- C1: for every model name and every `quant = some q`, the resolver
returns `repoId = "bartowski/<basename>-GGUF"` and
`fileRef = some "<basename>-<q>.gguf"`, where `basename` is the second
`/`-delimited segment of the name if one exists, else the name itself; the
dynamic path is taken whenever `quant` is present, regardless of any static
catalog match. -/
theorem claim_C1_dynamic_resolution (name q : String) :
    extract_hf_repo_and_file name (some q) =
      ("bartowski/" ++ (split_slash name).getD 1 name ++ "-GGUF",
       some ((split_slash name).getD 1 name ++ "-" ++ q ++ ".gguf")) := by
  simp only [extract_hf_repo_and_file]
  by_cases h : (split_slash name).length > 1
  · rw [dif_pos h, List.getD_eq_getElem?_getD, List.getElem?_eq_getElem h]
    simp [List.get_eq_getElem]
  · rw [dif_neg h, List.getD_eq_getElem?_getD,
      List.getElem?_eq_none (by omega : (split_slash name).length ≤ 1)]
    simp

/-- C2: when the first launch fails with the accelerator-absence signature
in its stderr, exactly one retry is attempted, with `--gpus all` removed and
the CPU image substituted, and a fatal error is surfaced only if that retry
also fails; a failure without the signature is surfaced immediately, with
the runtime's stderr text, and no retry happens. -/
theorem claim_C2_gpu_fallback (run : List String → CmdResult) (p v c : String)
    (hp : ¬ p = cuda_image) (hv : ¬ v = cuda_image) (hc : ¬ c = cuda_image) :
    ((run (docker_run_args p v c)).success = false →
      gpu_absence_signature (run (docker_run_args p v c)).stderr = true →
      launch_with_fallback run (docker_run_args p v c) =
        ⟨[docker_run_args p v c, cpu_run_args p v c],
         if (run (cpu_run_args p v c)).success then Except.ok ()
         else Except.error
           ("Docker failed to start container on CPU fallback. Ensure ports are not in use.\nError: " ++
             (run (cpu_run_args p v c)).stderr)⟩) ∧
    ((run (docker_run_args p v c)).success = false →
      gpu_absence_signature (run (docker_run_args p v c)).stderr = false →
      launch_with_fallback run (docker_run_args p v c) =
        ⟨[docker_run_args p v c],
         Except.error
           ("Docker failed to start container. Ensure ports are not in use.\nError: " ++
             (run (docker_run_args p v c)).stderr)⟩) ∧
    ((run (docker_run_args p v c)).success = true →
      launch_with_fallback run (docker_run_args p v c) =
        ⟨[docker_run_args p v c], Except.ok ()⟩) := by
  refine ⟨?_, ?_, ?_⟩
  · intro hfail hsig
    rw [launch_with_fallback, if_neg (by simp [hfail]), if_pos (by simp [hsig]),
      cpu_args_eq p v c hp hv hc]
    by_cases hcpu : (run (cpu_run_args p v c)).success
    · rw [if_pos hcpu, if_pos hcpu]
    · rw [if_neg hcpu, if_neg hcpu]
  · intro hfail hsig
    rw [launch_with_fallback, if_neg (by simp [hfail]), if_neg (by simp [hsig])]
  · intro hok
    rw [launch_with_fallback, if_pos hok]

/-- C3: with `quant = none` the resolver returns an empty repo together with
the full catalog URL (one fixed default URL for unknown names), and the
batch downloader never fetches such a target: every pair handed to the hub
client has a non-empty repo, and a batch of quant-less selections fetches
nothing at all. -/
theorem claim_C3_quantless_resolution_and_skip :
    (∀ name, extract_hf_repo_and_file name none = ("", some (default_url name))) ∧
    (∀ name, name ∉ (["llama3-70b-instruct", "mixtral-8x7b-instruct",
        "llama3-8b-instruct", "phi3-mini", "gemma-2b-it", "qwen2-7b-instruct",
        "mistral-7b-instruct"] : List String) →
      default_url name =
        "https://huggingface.co/lmstudio-community/Meta-Llama-3-8B-Instruct-GGUF/resolve/main/Meta-Llama-3-8B-Instruct-Q4_K_M.gguf") ∧
    (∀ (fetch : String → String → Except String Unit) (models : List ModelSelection)
        (p : String × String), p ∈ (download_models fetch models).1 → ¬ p.1 = "") ∧
    (∀ (fetch : String → String → Except String Unit) (models : List ModelSelection),
      (∀ m ∈ models, m.quant = none) →
        download_models fetch models = ([], Except.ok ())) := by
  refine ⟨fun _ => rfl, ?_, download_trace_repo_ne, download_models_all_legacy⟩
  intro name h
  simp only [List.mem_cons, List.not_mem_nil, or_false] at h
  push_neg at h
  unfold default_url
  split <;> simp_all

/-- C4: downloads are processed sequentially and the first failure ends the
batch — appending further targets after a failing prefix changes nothing —
and the start sequence launches the container exactly when the whole
download phase succeeded; on a download error it aborts with that error and
the container-start stage never runs. -/
theorem claim_C4_downloads_gate_start :
    (∀ (fetch : String → String → Except String Unit) (launch : Except String Unit)
        (models : List ModelSelection),
      StartStep.startContainer ∈ (run_start fetch launch models).1 ↔
        (download_models fetch models).2 = Except.ok ()) ∧
    (∀ (fetch : String → String → Except String Unit) (launch : Except String Unit)
        (models : List ModelSelection) (e : String),
      (download_models fetch models).2 = Except.error e →
        run_start fetch launch models =
          ([StartStep.download], Except.error ("Failed to download models: " ++ e))) ∧
    (∀ (fetch : String → String → Except String Unit) (ms₁ ms₂ : List ModelSelection)
        (e : String), (download_models fetch ms₁).2 = Except.error e →
      download_models fetch (ms₁ ++ ms₂) = download_models fetch ms₁) := by
  refine ⟨?_, ?_, download_models_append_error⟩
  · intro fetch launch models
    rw [run_start.eq_def]
    rcases h : (download_models fetch models).2 with e | u
    · simp
    · rcases u
      rcases launch with e' | u'
      · simp
      · simp
  · intro fetch launch models e h
    rw [run_start.eq_def, h]

/-- C5 (classifier modelled from the spec, absent from `src/`): every
non-empty line is classified into exactly one phase event by the ordered
rule list — `Ready`, `MetaStat`, `Downloading`, `LoadingBuffers`,
`ProcessingLayers`, `ComputingCache`, then the `Generic` fallback — first
match winning, and a line equal to the listening marker ends the event
sequence with `Ready`, whatever follows it. -/
theorem claim_C5_status_classification (v : LogVocabulary)
    (hml : ¬ v.listening = "") :
    (∀ line, ¬ line = "" →
      classify_line v line =
        first_match (phase_rules v)
          (fun l => PhaseEvent.generic (str_take l v.genericLimit)) line) ∧
    (∀ lines rest, (∀ l ∈ lines, ¬ l = "" ∧ ¬ l = v.listening) →
      watch_lines v (lines ++ v.listening :: rest) =
        lines.map (classify_line v) ++ [PhaseEvent.ready]) := by
  constructor
  · intro line _
    by_cases h1 : line = v.listening
    · simp [classify_line, first_match, phase_rules, h1]
    · rcases h2 : meta_parts v line with _ | ⟨k, _ | ⟨val, _ | ⟨x, xs⟩⟩⟩ <;>
        simp [classify_line, first_match, phase_rules, h1, h2]
  · intro lines
    induction lines with
    | nil =>
      intro rest h
      rw [List.nil_append, watch_lines, if_neg hml]
      simp [classify_line]
    | cons l ls ih =>
      intro rest h
      have h0 := h l (List.mem_cons_self l ls)
      rw [List.cons_append, watch_lines, if_neg h0.1]
      simp only
      rw [if_neg (classify_line_ne_ready v l h0.2),
        ih rest (fun x hx => h x (List.mem_cons_of_mem l hx))]
      simp

/-- C6: the generated launch command carries `--hf-repo` only when the
resolved repo is non-empty and `--hf-file` only when a file reference is
present — an absent or empty field never yields an empty flag. -/
theorem claim_C6_no_empty_flags (m : ModelSelection) :
    (m.quant = none →
      model_entry m =
        "  " ++ m.name ++ ":\n    cmd: llama-server --port ${PORT}  --hf-file " ++
          default_url m.name ++ " --host 0.0.0.0 --ctx-size 8192\n") ∧
    (∀ q, m.quant = some q →
      ∃ f, (extract_hf_repo_and_file m.name m.quant).2 = some f ∧
        model_entry m =
          "  " ++ m.name ++ ":\n    cmd: llama-server --port ${PORT} --hf-repo " ++
            (extract_hf_repo_and_file m.name m.quant).1 ++ " --hf-file " ++ f ++
            " --host 0.0.0.0 --ctx-size 8192\n") ∧
    (∀ repo, ¬ repo = "" →
      model_cmd_line repo none =
        "    cmd: llama-server --port ${PORT} --hf-repo " ++ repo ++
          "  --host 0.0.0.0 --ctx-size 8192\n") ∧
    (model_cmd_line "" none =
      "    cmd: llama-server --port ${PORT}   --host 0.0.0.0 --ctx-size 8192\n") := by
  rcases m with ⟨nm, qu⟩
  refine ⟨?_, ?_, ?_, rfl⟩
  · intro hq
    simp only at hq
    subst hq
    simp only [model_entry, extract_hf_repo_and_file, model_cmd_line,
      if_true, String.append_assoc]
    rfl
  · intro q hq
    simp only at hq
    subst hq
    simp only [extract_hf_repo_and_file, model_entry, model_cmd_line]
    refine ⟨_, rfl, ?_⟩
    rw [if_neg (dynamic_repo_ne_empty _ "-GGUF")]
    simp only [String.append_assoc]
    rfl
  · intro repo h
    simp only [model_cmd_line]
    rw [if_neg h]
    simp only [String.append_assoc]
    rfl

/-- C7: the model entries of the generated config appear in exactly the
input list's order, and generation is deterministic — the same selection
list yields byte-identical output. -/
theorem claim_C7_ordering_determinism (models : List ModelSelection) :
    generate_config models =
      "models:\n" ++ concat_map_str model_entry models ++ groups_section models ∧
    generate_config models = generate_config models :=
  ⟨generate_config_eq models, rfl⟩

/-- C10: the config carries a groups section exactly when some selection
satisfies the autocomplete predicate; when present it is the single fixed
`autocomplete` group — `persistent: true`, `swap: false`,
`exclusive: false` — whose members are the qualifying names in input
order. -/
theorem claim_C10_groups_section (models : List ModelSelection) :
    ((autocomplete_members models).isEmpty = true ↔
      ∀ m ∈ models, is_autocomplete_model m.name = false) ∧
    ((∀ m ∈ models, is_autocomplete_model m.name = false) →
      generate_config models = "models:\n" ++ concat_map_str model_entry models) ∧
    ((∃ m ∈ models, is_autocomplete_model m.name = true) →
      generate_config models =
        "models:\n" ++ concat_map_str model_entry models ++
          (groups_header ++ concat_map_str member_line (autocomplete_members models))) ∧
    autocomplete_members models =
      (models.filter (fun m => is_autocomplete_model m.name)).map
        (fun m => m.name) := by
  have hiff : (autocomplete_members models).isEmpty = true ↔
      ∀ m ∈ models, is_autocomplete_model m.name = false := by
    simp [autocomplete_members, List.isEmpty_iff, List.map_eq_nil_iff,
      List.filter_eq_nil_iff]
  refine ⟨hiff, ?_, ?_, rfl⟩
  · intro h
    rw [generate_config_eq, groups_section, if_pos (hiff.mpr h),
      String.append_empty]
  · intro h
    have hne : ¬ (autocomplete_members models).isEmpty = true := by
      intro he
      rcases h with ⟨m, hm, hq⟩
      rw [hiff.mp he m hm] at hq
      exact Bool.false_ne_true hq
    rw [generate_config_eq, groups_section, if_neg hne]

/-- C8: the persistent-group predicate holds exactly when the lowercased
name contains one of the substrings `"mini"`, `"coder"`, `"1.5b"`, `"2b"`,
`"0.5b"`. -/
theorem claim_C8_autocomplete_predicate (name : String) :
    is_autocomplete_model name = true ↔
      ∃ pat ∈ (["mini", "coder", "1.5b", "2b", "0.5b"] : List String),
        ∃ l r, (to_lowercase name).toList = l ++ pat.toList ++ r := by
  simp only [is_autocomplete_model, Bool.or_eq_true, str_contains_iff]
  constructor
  · rintro ((((h | h) | h) | h) | h)
    · exact ⟨"mini", by simp, h⟩
    · exact ⟨"coder", by simp, h⟩
    · exact ⟨"1.5b", by simp, h⟩
    · exact ⟨"2b", by simp, h⟩
    · exact ⟨"0.5b", by simp, h⟩
  · rintro ⟨pat, hm, h⟩
    simp only [List.mem_cons, List.not_mem_nil, or_false] at hm
    rcases hm with rfl | rfl | rfl | rfl | rfl
    · exact Or.inl (Or.inl (Or.inl (Or.inl h)))
    · exact Or.inl (Or.inl (Or.inl (Or.inr h)))
    · exact Or.inl (Or.inl (Or.inr h))
    · exact Or.inl (Or.inr h)
    · exact Or.inr h

/-- C9: `stop_server` is idempotent — with no instance present the removal
command exits non-zero and the call still succeeds; the only surfaced
failure is the removal command itself failing to execute, and that error is
passed through unchanged. -/
theorem claim_C9_stop_idempotent :
    (∀ r : CmdResult, stop_server (Except.ok r) =
        Except.ok (if r.success then some "Server stopped successfully." else none)) ∧
    stop_server (Except.ok ⟨false, "Error response from daemon: No such container: opencode-llm"⟩) =
      Except.ok none ∧
    (∀ e : String, stop_server (Except.error e) = Except.error e) :=
  ⟨fun _ => rfl, rfl, fun _ => rfl⟩

/-- Witness for C2: against a runtime whose GPU launches fail with the
driver-absence diagnostic, the start performs exactly the CUDA attempt and
the CPU retry, and succeeds. -/
theorem claim_C2_witness :
    (¬ ("8080:8080" : String) = cuda_image) ∧
    (gpu_failing_docker (docker_run_args "8080:8080" "/data/models:/models"
        "/data/models/llama-swap.yaml:/app/config.yaml")).success = false ∧
    gpu_absence_signature (gpu_failing_docker (docker_run_args "8080:8080"
        "/data/models:/models" "/data/models/llama-swap.yaml:/app/config.yaml")).stderr
      = true ∧
    launch_with_fallback gpu_failing_docker
        (docker_run_args "8080:8080" "/data/models:/models"
          "/data/models/llama-swap.yaml:/app/config.yaml") =
      ⟨[docker_run_args "8080:8080" "/data/models:/models"
          "/data/models/llama-swap.yaml:/app/config.yaml",
        cpu_run_args "8080:8080" "/data/models:/models"
          "/data/models/llama-swap.yaml:/app/config.yaml"],
       Except.ok ()⟩ := by
  refine ⟨by decide, by decide, by decide, ?_⟩
  have h := (claim_C2_gpu_fallback gpu_failing_docker "8080:8080"
    "/data/models:/models" "/data/models/llama-swap.yaml:/app/config.yaml"
    (by decide) (by decide) (by decide)).1 (by decide) (by decide)
  rw [h]
  rfl

/-- Witness for C3: a quant-less selection resolves to the legacy form, an
unknown name falls back to the fixed default URL, a fetched pair has a
non-empty repo, and an all-quant-less batch fetches nothing. -/
theorem claim_C3_witness :
    extract_hf_repo_and_file "phi3-mini" none =
      ("", some "https://huggingface.co/microsoft/Phi-3-mini-4k-instruct-gguf/resolve/main/Phi-3-mini-4k-instruct-q4.gguf") ∧
    (("my-own-model" ∉ (["llama3-70b-instruct", "mixtral-8x7b-instruct",
        "llama3-8b-instruct", "phi3-mini", "gemma-2b-it", "qwen2-7b-instruct",
        "mistral-7b-instruct"] : List String)) ∧
      default_url "my-own-model" =
        "https://huggingface.co/lmstudio-community/Meta-Llama-3-8B-Instruct-GGUF/resolve/main/Meta-Llama-3-8B-Instruct-Q4_K_M.gguf") ∧
    ((("bartowski/llama3-8b-instruct-GGUF", "llama3-8b-instruct-Q4_K_M.gguf") ∈
        (download_models fetch_ok
          [⟨"author/llama3-8b-instruct", some "Q4_K_M"⟩]).1) ∧
      ¬ (("bartowski/llama3-8b-instruct-GGUF",
          "llama3-8b-instruct-Q4_K_M.gguf") : String × String).1 = "") ∧
    ((∀ m ∈ ([⟨"phi3-mini", none⟩, ⟨"gemma-2b-it", none⟩] :
        List ModelSelection), m.quant = none) ∧
      download_models fetch_ok
          [⟨"phi3-mini", none⟩, ⟨"gemma-2b-it", none⟩] =
        ([], Except.ok ())) := by
  refine ⟨claim_C3_quantless_resolution_and_skip.1 "phi3-mini",
    ⟨by decide, claim_C3_quantless_resolution_and_skip.2.1 "my-own-model" (by decide)⟩,
    ⟨by decide, claim_C3_quantless_resolution_and_skip.2.2.1 fetch_ok
      [⟨"author/llama3-8b-instruct", some "Q4_K_M"⟩]
      ("bartowski/llama3-8b-instruct-GGUF", "llama3-8b-instruct-Q4_K_M.gguf")
      (by decide)⟩,
    ⟨by decide, claim_C3_quantless_resolution_and_skip.2.2.2 fetch_ok
      [⟨"phi3-mini", none⟩, ⟨"gemma-2b-it", none⟩] (by decide)⟩⟩

/-- Witness for C4: with a rejecting hub client the batch fails on its
first target, the start sequence stops before the container stage, and a
longer batch behaves identically to its failing prefix. -/
theorem claim_C4_witness :
    run_start fetch_reject (Except.ok ()) [⟨"a/b", some "Q4"⟩] =
      ([StartStep.download],
       Except.error "Failed to download models: 404 Not Found: bartowski/b-GGUF/b-Q4.gguf") ∧
    download_models fetch_reject
        ([⟨"a/b", some "Q4"⟩] ++ [⟨"c/d", some "Q5"⟩]) =
      download_models fetch_reject [⟨"a/b", some "Q4"⟩] ∧
    (StartStep.startContainer ∈
        (run_start fetch_reject (Except.ok ()) [⟨"a/b", some "Q4"⟩]).1 ↔
      (download_models fetch_reject [⟨"a/b", some "Q4"⟩]).2 = Except.ok ()) := by
  refine ⟨?_, ?_, ?_⟩
  · have h := claim_C4_downloads_gate_start.2.1 fetch_reject (Except.ok ())
      [⟨"a/b", some "Q4"⟩] "404 Not Found: bartowski/b-GGUF/b-Q4.gguf" (by rfl)
    rw [h]
    rfl
  · exact claim_C4_downloads_gate_start.2.2 fetch_reject [⟨"a/b", some "Q4"⟩]
      [⟨"c/d", some "Q5"⟩] "404 Not Found: bartowski/b-GGUF/b-Q4.gguf" (by rfl)
  · exact claim_C4_downloads_gate_start.1 fetch_reject (Except.ok ())
      [⟨"a/b", some "Q4"⟩]

/-- Witness for C5: against the sample vocabulary, a non-empty line agrees
with the ordered rule list, and a backlog of two classified lines followed
by the listening marker ends in `Ready` with nothing after it. -/
theorem claim_C5_witness :
    (¬ sample_vocabulary.listening = "") ∧
    classify_line sample_vocabulary "loading the model" =
      first_match (phase_rules sample_vocabulary)
        (fun l => PhaseEvent.generic (str_take l sample_vocabulary.genericLimit))
        "loading the model" ∧
    watch_lines sample_vocabulary
        (["llm_load_print_meta: format = GGUF V3", "downloading model shard"] ++
          sample_vocabulary.listening :: ["ignored afterwards"]) =
      ["llm_load_print_meta: format = GGUF V3", "downloading model shard"].map
          (classify_line sample_vocabulary) ++ [PhaseEvent.ready] :=
  ⟨by decide,
   (claim_C5_status_classification sample_vocabulary (by decide)).1
     "loading the model" (by decide),
   (claim_C5_status_classification sample_vocabulary (by decide)).2
     ["llm_load_print_meta: format = GGUF V3", "downloading model shard"]
     ["ignored afterwards"] (by decide)⟩

/-- Witness for C6: a catalog selection yields a command with no
`--hf-repo` flag, a dynamic selection yields both flags populated, and a
file-less launch line with a repo carries no `--hf-file` flag. -/
theorem claim_C6_witness :
    model_entry ⟨"qwen2-7b-instruct", none⟩ =
      "  qwen2-7b-instruct:\n    cmd: llama-server --port ${PORT}  --hf-file " ++
        default_url "qwen2-7b-instruct" ++ " --host 0.0.0.0 --ctx-size 8192\n" ∧
    (∃ f, (extract_hf_repo_and_file "author/llama3-8b-instruct"
        (some "Q4_K_M")).2 = some f ∧
      model_entry ⟨"author/llama3-8b-instruct", some "Q4_K_M"⟩ =
        "  author/llama3-8b-instruct:\n    cmd: llama-server --port ${PORT} --hf-repo " ++
          (extract_hf_repo_and_file "author/llama3-8b-instruct"
            (some "Q4_K_M")).1 ++ " --hf-file " ++ f ++
          " --host 0.0.0.0 --ctx-size 8192\n") ∧
    model_cmd_line "bartowski/some-model-GGUF" none =
      "    cmd: llama-server --port ${PORT} --hf-repo bartowski/some-model-GGUF  --host 0.0.0.0 --ctx-size 8192\n" := by
  refine ⟨?_, ?_, ?_⟩
  · have h := (claim_C6_no_empty_flags ⟨"qwen2-7b-instruct", none⟩).1 rfl
    rw [h]
    rfl
  · exact (claim_C6_no_empty_flags ⟨"author/llama3-8b-instruct",
      some "Q4_K_M"⟩).2.1 "Q4_K_M" rfl
  · have h := (claim_C6_no_empty_flags
      ⟨"unused", none⟩).2.2.1 "bartowski/some-model-GGUF" (by decide)
    rw [h]
    rfl

/-- Witness for C10: a mixed selection list yields the groups section with
exactly the qualifying name, and a list with no qualifying name yields no
groups section. -/
theorem claim_C10_witness :
    generate_config [⟨"phi3-mini", none⟩, ⟨"llama3-8b-instruct", none⟩] =
      "models:\n" ++ concat_map_str model_entry
          [⟨"phi3-mini", none⟩, ⟨"llama3-8b-instruct", none⟩] ++
        (groups_header ++ concat_map_str member_line
          (autocomplete_members
            [⟨"phi3-mini", none⟩, ⟨"llama3-8b-instruct", none⟩])) ∧
    autocomplete_members [⟨"phi3-mini", none⟩, ⟨"llama3-8b-instruct", none⟩] =
      ["phi3-mini"] ∧
    generate_config [⟨"llama3-8b-instruct", none⟩] =
      "models:\n" ++ concat_map_str model_entry [⟨"llama3-8b-instruct", none⟩] := by
  refine ⟨?_, by decide, ?_⟩
  · exact (claim_C10_groups_section
      [⟨"phi3-mini", none⟩, ⟨"llama3-8b-instruct", none⟩]).2.2.1
      ⟨⟨"phi3-mini", none⟩, by decide, by decide⟩
  · exact (claim_C10_groups_section [⟨"llama3-8b-instruct", none⟩]).2.1
      (by decide)

end Localcode
